import Mathlib

/-!
Verification development for the Beefree SDK MCP example demo
(`src/main.py`, `src/config.py`).

The Python source is shallowly embedded: JSON values become the inductive
type `JVal`; external collaborators (the remote MCP tool service reached
through `call_tool`, `json.loads`, `json.dumps`, and the pydantic-ai agent
run) become oracle function parameters; exceptions become `Except` /
explicit outcome fields.  The WebSocket endpoint's receive loop, the chat
turn it performs inline, the `process_tool_call` gateway, the editor-state
snapshot update, `build_agent`, and the auth-token payload are each
transcribed as executable Lean definitions, and the spec's claims are then
settled as theorems about those definitions.
-/

namespace BeefreeMcp

/-- JSON values, the shape of every payload crossing the wire. -/
inductive JVal
  | null
  | b (v : Bool)
  | i (v : Int)
  | s (v : String)
  | arr (vs : List JVal)
  | obj (fs : List (String × JVal))

/-- Python `v == "lit"` for a JSON value against a string literal:
true exactly when `v` is that string. -/
def JVal.isStr (v : JVal) (lit : String) : Bool :=
  match v with
  | JVal.s t => t = lit
  | _ => false

/-- Python exceptions, as far as the endpoint distinguishes them:
`starlette.websockets.WebSocketDisconnect` versus everything else
(carrying its `str(e)` message). -/
inductive PyExc
  | wsDisconnect
  | other (msg : String)
deriving DecidableEq

/-- `str(e)` for an exception value. -/
def PyExc.msgOf : PyExc → String
  | PyExc.wsDisconnect => "WebSocketDisconnect"
  | PyExc.other m => m

/-- `message_data[key]`: succeeds only on a JSON object holding the key;
a missing key raises `KeyError`, subscripting a non-object raises
`TypeError`. -/
def jIndex (v : JVal) (key : String) : Except PyExc JVal :=
  match v with
  | JVal.obj fs =>
    match fs.lookup key with
    | some x => Except.ok x
    | none => Except.error (PyExc.other ("KeyError: " ++ key))
  | _ => Except.error (PyExc.other "TypeError: value is not subscriptable")

/-- `message_data.get(key, default)` on a JSON object (the endpoint only
reaches this after `message_data[type]` succeeded, so the value is an
object). -/
def jGetD (v : JVal) (key : String) (dflt : JVal) : JVal :=
  match v with
  | JVal.obj fs => (fs.lookup key).getD dflt
  | _ => dflt

/-- Outbound events the endpoint serializes to the WebSocket
(`src/main.py` lines 248-288): the tagged wire variants. -/
inductive Event
  | start
  | progress (m : String)
  | stream (c : String)
  | complete
  | error (m : String)
deriving DecidableEq

/-- Conversation messages are kept opaque: the session never inspects
them, it only stores the list the agent run returns. -/
abbrev Msg := String

/-- The outbound channel: `none` is a healthy connection on which every
`send_text` succeeds; `some k` is a connection the client abandons after
`k` more successful sends, after which every send raises. -/
abbrev Chan := Option Nat

/-- One `websocket.send_text` attempt: returns the channel afterwards and
whether the send succeeded (a failed send raises in the Python source). -/
def sendEv (c : Chan) : Chan × Bool :=
  match c with
  | none => (none, true)
  | some 0 => (some 0, false)
  | some (n + 1) => (some n, true)

/- ----------------------------------------------------------------
Tool-call gateway (`process_tool_call`, src/main.py lines 31-48).
---------------------------------------------------------------- -/

/-- The metadata dict `{x-bee-uid: ctx.deps.uid}` the gateway attaches to
every forwarded tool call (src/main.py line 42). -/
def identityMetadata (uid : String) : JVal :=
  JVal.obj [("x-bee-uid", JVal.s uid)]

/-- The remote MCP service as an oracle: given tool name, arguments and
the metadata dict, it returns a result or raises (message `e`). -/
abbrev CallTool := String → JVal → JVal → Except String JVal

/-- `process_tool_call` (src/main.py lines 31-48): forwards the call with
the session identity metadata; on any exception returns the structured
payload with the error message and the tool name instead of raising. -/
def process_tool_call (call_tool : CallTool) (uid : String)
    (name : String) (tool_args : JVal) : JVal :=
  match call_tool name tool_args (identityMetadata uid) with
  | Except.ok result => result
  | Except.error e => JVal.obj [("error", JVal.s e), ("tool", JVal.s name)]

/-- A session's sequence of tool invocations, each handled by
`process_tool_call`; the list position is the value a per-session call
counter would have (the source keeps no such counter). -/
def runToolCallSequence (call_tool : CallTool) (uid : String)
    (calls : List (String × JVal)) : List JVal :=
  calls.map (fun c => process_tool_call call_tool uid c.1 c.2)

/-- Modelled from the spec: the rejection payload
`{error: tool_call_limit_reached, tool: name}` the spec says the gateway
returns once the per-session ceiling is exceeded.  No such payload is
built anywhere in `src/`. -/
def specLimitRejection (name : String) : JVal :=
  JVal.obj [("error", JVal.s "tool_call_limit_reached"), ("tool", JVal.s name)]

/- ----------------------------------------------------------------
Editor-state snapshot update (src/main.py lines 290-295).
---------------------------------------------------------------- -/

/-- Python string slicing `x[:n]`: the first `n` code points. -/
def pyTake (s : String) (n : Nat) : String :=
  String.mk (s.data.take n)

/-- `json.dumps` as an oracle: serializes a value or raises `TypeError`. -/
abbrev Dumps := JVal → Except Unit String

/-- The `editor_state` branch (src/main.py lines 290-295):
`editor_state_snapshot = json.dumps(content)[:4000]`, and on `TypeError`
the snapshot is assigned `None`.  Note the previous snapshot is *not*
retained on failure. -/
def handle_state_update (dumps : Dumps) (prev : Option String)
    (content : JVal) : Option String :=
  match dumps content with
  | Except.ok serialized => some (pyTake serialized 4000)
  | Except.error _ =>
    let _ := prev
    none

/- ----------------------------------------------------------------
Chat turn (the body of the `type == chat` branch,
src/main.py lines 243-288).
---------------------------------------------------------------- -/

/-- What one `agent.run` invocation does: the progress messages the agent
pushes through `send_progress_update` while running, then either a final
`(output, all_messages)` pair or an exception message. -/
structure RunResult where
  progress : List String
  outcome : Except String (Option String × List Msg)

/-- The pydantic-ai agent as an oracle over (history, user message,
extra instructions). -/
abbrev AgentRun := List Msg → JVal → Option String → RunResult

/-- `extra_instructions` (src/main.py lines 255-260): `None` unless the
snapshot is truthy (a non-empty string), in which case the snapshot is
wrapped in the editor-state preamble. -/
def instructionsOf (snapshot : Option String) : Option String :=
  match snapshot with
  | some snap => if snap = "" then none else
      some ("Current editor state (truncated JSON):\n" ++ snap)
  | none => none

/-- The canned completion notice used when `result.output` is falsy. -/
def fallbackNotice : String := "✅ Done. Check the editor for updates."

/-- `result.output or fallback` (src/main.py line 269): Python `or`
replaces `None` and the empty string by the fallback. -/
def outputTextOf (out : Option String) : String :=
  match out with
  | some t => if t = "" then fallbackNotice else t
  | none => fallbackNotice

/-- `send_progress_update` repeated over the agent's progress messages
(src/main.py lines 63-85): each message is one send attempt whose failure
is swallowed (the tool returns a failure string, never raises).  Returns
the channel afterwards, the successfully sent events, and all attempted
events. -/
def sendProgressAll (c : Chan) : List String → Chan × List Event × List Event
  | [] => (c, [], [])
  | m :: rest =>
    let step := sendEv c
    let tail := sendProgressAll step.1 rest
    (tail.1,
     (if step.2 then [Event.progress m] else []) ++ tail.2.1,
     Event.progress m :: tail.2.2)

/-- Outcome of one chat turn: channel state afterwards, events
successfully written, events attempted, the message history afterwards,
and the exception (if any) propagating out of the chat branch to the
endpoint's outer handler. -/
structure TurnResult where
  chan : Chan
  sent : List Event
  attempted : List Event
  history : List Msg
  raised : Option PyExc
deriving DecidableEq

/-- The chat branch of the endpoint loop (src/main.py lines 243-288),
for one inbound user message:
send `start` (outside the inner `try`); run the agent (progress sends
happen during the run and swallow their own failures); on an exception
from the run, the inner handler attempts one `error` event; on success,
send `stream`, commit `message_history = result.all_messages()`, then
send `complete`; a failed `stream`/`complete` send is itself caught by
the inner `except Exception`, which attempts an `error` event whose
failure propagates outward. -/
def handleChat (run : AgentRun) (chan : Chan) (history : List Msg)
    (snapshot : Option String) (userMsg : JVal) : TurnResult :=
  let startStep := sendEv chan
  if startStep.2 then
    let rr := run history userMsg (instructionsOf snapshot)
    let prog := sendProgressAll startStep.1 rr.progress
    let sent0 := Event.start :: prog.2.1
    let att0 := Event.start :: prog.2.2
    match rr.outcome with
    | Except.error e =>
      let ev := Event.error ("Error: " ++ e)
      let errStep := sendEv prog.1
      ⟨errStep.1, sent0 ++ (if errStep.2 then [ev] else []), att0 ++ [ev],
       history, if errStep.2 then none else some PyExc.wsDisconnect⟩
    | Except.ok (out, allMsgs) =>
      let txt := outputTextOf out
      let streamStep := sendEv prog.1
      if streamStep.2 then
        let compStep := sendEv streamStep.1
        if compStep.2 then
          ⟨compStep.1, sent0 ++ [Event.stream txt, Event.complete],
           att0 ++ [Event.stream txt, Event.complete], allMsgs, none⟩
        else
          let ev := Event.error ("Error: " ++ PyExc.msgOf PyExc.wsDisconnect)
          let errStep := sendEv compStep.1
          ⟨errStep.1,
           sent0 ++ [Event.stream txt] ++ (if errStep.2 then [ev] else []),
           att0 ++ [Event.stream txt, Event.complete, ev], allMsgs,
           if errStep.2 then none else some PyExc.wsDisconnect⟩
      else
        let ev := Event.error ("Error: " ++ PyExc.msgOf PyExc.wsDisconnect)
        let errStep := sendEv streamStep.1
        ⟨errStep.1, sent0 ++ (if errStep.2 then [ev] else []),
         att0 ++ [Event.stream txt, ev], history,
         if errStep.2 then none else some PyExc.wsDisconnect⟩
  else
    ⟨startStep.1, [], [Event.start], history, some PyExc.wsDisconnect⟩

/- ----------------------------------------------------------------
The WebSocket endpoint receive loop (src/main.py lines 238-301).
---------------------------------------------------------------- -/

/-- An inbound transport event: a text frame, or the client
disconnecting (which makes `receive_text` raise
`WebSocketDisconnect`). -/
inductive RecvEv
  | msg (s : String)
  | disconnect

/-- The connection's external collaborators: `json.loads`, `json.dumps`,
and the agent run. -/
structure LoopEnv where
  loads : String → Except String JVal
  dumps : Dumps
  run : AgentRun

/-- How the endpoint loop ends: `WebSocketDisconnect` caught by the outer
handler (clean log-and-exit), any other exception caught by the outer
handler (log and close), or the modelled inbound script being
exhausted. -/
inductive ExitKind
  | cleanDisconnect
  | errorClose
  | scriptEnd
deriving DecidableEq

/-- Endpoint loop outcome: events successfully written, events
attempted, final history and snapshot, and how the loop ended. -/
structure LoopResult where
  sent : List Event
  attempted : List Event
  history : List Msg
  snapshot : Option String
  exitKind : ExitKind
deriving DecidableEq

/-- The `while True` receive loop of `websocket_endpoint`
(src/main.py lines 238-301), one inbound event at a time:
`receive_text` raising `WebSocketDisconnect` exits cleanly; a frame
`json.loads` cannot decode raises to the outer `except Exception`
(close and exit); so does a missing/unsubscriptable `type` or a chat
frame without `message`; a `chat` frame runs `handleChat`, whose
propagated exception (if any) reaches the outer handlers; an
`editor_state` frame updates the snapshot via `handle_state_update`;
any other `type` value falls through both branches and the loop
continues. -/
def wsLoop (env : LoopEnv) (chan : Chan) (history : List Msg)
    (snapshot : Option String) : List RecvEv → LoopResult
  | [] => ⟨[], [], history, snapshot, ExitKind.scriptEnd⟩
  | RecvEv.disconnect :: _ =>
    ⟨[], [], history, snapshot, ExitKind.cleanDisconnect⟩
  | RecvEv.msg frame :: rest =>
    match env.loads frame with
    | Except.error _ => ⟨[], [], history, snapshot, ExitKind.errorClose⟩
    | Except.ok v =>
      match jIndex v "type" with
      | Except.error _ => ⟨[], [], history, snapshot, ExitKind.errorClose⟩
      | Except.ok t =>
        if t.isStr "chat" then
          match jIndex v "message" with
          | Except.error _ => ⟨[], [], history, snapshot, ExitKind.errorClose⟩
          | Except.ok um =>
            let tr := handleChat env.run chan history snapshot um
            match tr.raised with
            | some PyExc.wsDisconnect =>
              ⟨tr.sent, tr.attempted, tr.history, snapshot,
               ExitKind.cleanDisconnect⟩
            | some (PyExc.other _) =>
              ⟨tr.sent, tr.attempted, tr.history, snapshot,
               ExitKind.errorClose⟩
            | none =>
              let r := wsLoop env tr.chan tr.history snapshot rest
              ⟨tr.sent ++ r.sent, tr.attempted ++ r.attempted,
               r.history, r.snapshot, r.exitKind⟩
        else if t.isStr "editor_state" then
          let snap := handle_state_update env.dumps snapshot
            (jGetD v "content" (JVal.obj []))
          wsLoop env chan history snap rest
        else
          wsLoop env chan history snapshot rest

/- ----------------------------------------------------------------
Configuration and agent construction
(`src/config.py`, `build_agent` src/main.py lines 91-121).
---------------------------------------------------------------- -/

/-- The process settings (src/config.py lines 7-31).  Optional string
fields keep Python's `str | None`. -/
structure Settings where
  beefree_client_id : String
  beefree_client_secret : String
  beefree_uid : String
  beefree_mcp_api_key : String
  ai_provider : String
  llm_model : String
  gemini_api_key : Option String
  openai_api_key : Option String

/-- Python falsiness of a `str | None` value: `None` or the empty
string. -/
def optionFalsy : Option String → Bool
  | none => true
  | some s => s = ""

/-- Python `str.strip()`: remove leading and trailing whitespace
(transcribed over the string's character list so that it computes). -/
def pyStrip (s : String) : String :=
  String.mk (((s.data.dropWhile Char.isWhitespace).reverse.dropWhile
    Char.isWhitespace).reverse)

/-- Python `str.lower()`: lower-case every character. -/
def pyLower (s : String) : String :=
  String.mk (s.data.map Char.toLower)

/-- The concrete model a successful `build_agent` constructs. -/
inductive AgentModel
  | gemini (model : String) (key : String)
  | openai (model : String) (key : String)
deriving DecidableEq

/-- `build_agent` (src/main.py lines 91-121): validates provider and
model configuration, raising `ValueError` (the error string) when the
provider selection is blank, the model is blank, the selected provider's
credential is falsy, or the provider tag is unrecognized; otherwise
constructs the provider's model.  It runs at module import
(`agent = build_agent()`, line 201), before the server starts. -/
def build_agent (s : Settings) : Except String AgentModel :=
  if s.ai_provider = "" ∨ pyStrip s.ai_provider = "" then
    Except.error "AI_PROVIDER is required (gemini or openai)"
  else if s.llm_model = "" ∨ pyStrip s.llm_model = "" then
    Except.error "LLM_MODEL is required"
  else
    let provider := pyLower (pyStrip s.ai_provider)
    if provider = "gemini" then
      if optionFalsy s.gemini_api_key then
        Except.error "GEMINI_API_KEY is required when AI_PROVIDER=gemini"
      else
        Except.ok (AgentModel.gemini s.llm_model ((s.gemini_api_key).getD ""))
    else if provider = "openai" then
      if optionFalsy s.openai_api_key then
        Except.error "OPENAI_API_KEY is required when AI_PROVIDER=openai"
      else
        Except.ok (AgentModel.openai s.llm_model ((s.openai_api_key).getD ""))
    else
      Except.error "AI_PROVIDER must be \x27gemini\x27 or \x27openai\x27"

/- ----------------------------------------------------------------
Process-wide caller identity (src/config.py lines 13-16,
src/main.py lines 261-263 and 304-324).
---------------------------------------------------------------- -/

/-- The uid placed in `AgentDeps` for a turn (src/main.py line 263):
always `settings.beefree_uid`, whatever the connection or turn. The
`conn` and `turn` arguments index which connection and which turn of it
is being served; the source gives them no influence on the uid. -/
def mkTurnDepsUid (s : Settings) (conn : Nat) (turn : Nat) : String :=
  let _ := conn
  let _ := turn
  s.beefree_uid

/-- The JSON payload `get_beefree_token` posts to the external auth
service (src/main.py lines 315-319). -/
def get_beefree_token_payload (s : Settings) : JVal :=
  JVal.obj
    [("client_id", JVal.s s.beefree_client_id),
     ("client_secret", JVal.s s.beefree_client_secret),
     ("uid", JVal.s s.beefree_uid)]

/- ================================================================
Theorems settling the claims.
================================================================ -/

/-- A remote-service oracle that always succeeds with a fixed result. -/
def okOracle : CallTool := fun _ _ _ => Except.ok (JVal.s "remote-ok")

/-- A remote-service oracle that returns the metadata dict it was handed,
making the identity the gateway attaches observable as the call result. -/
def echoMeta : CallTool := fun _ _ md => Except.ok md

/-- C1 counterexample: in a session that has already made 45 tool calls,
the 46th call (counter 46, exceeding the claimed default ceiling of 45)
is still forwarded to the remote service and returns the remote result,
not the rejection payload `specLimitRejection`; no counter or ceiling
exists in `process_tool_call`. -/
theorem c1_counterexample :
    (runToolCallSequence okOracle "demo-uid"
       (List.replicate 46 ("beefree_add_image", JVal.obj []))).getLast?
      = some (JVal.s "remote-ok") ∧
    JVal.s "remote-ok" ≠ specLimitRejection "beefree_add_image" :=
  ⟨rfl, fun h => JVal.noConfusion h⟩

/-- C1 (amended): the gateway keeps no per-session tool-call counter and
enforces no ceiling: every invocation in a session's call sequence,
whatever its position, is forwarded to the remote service, and when the
remote call succeeds its result is returned unchanged. -/
theorem c1_no_ceiling (call_tool : CallTool) (uid : String)
    (calls : List (String × JVal)) (idx : Nat) (h : idx < calls.length)
    (h2 : idx < (runToolCallSequence call_tool uid calls).length) (r : JVal)
    (hr : call_tool calls[idx].1 calls[idx].2
            (identityMetadata uid) = Except.ok r) :
    (runToolCallSequence call_tool uid calls)[idx] = r := by
  simp [runToolCallSequence, process_tool_call, hr]

/-- C1 witness: `c1_no_ceiling` at a concrete one-call session. -/
theorem c1_no_ceiling_witness :
    okOracle "t" JVal.null (identityMetadata "demo-uid")
        = Except.ok (JVal.s "remote-ok") ∧
    (runToolCallSequence okOracle "demo-uid" [("t", JVal.null)])[0]
        = JVal.s "remote-ok" :=
  ⟨rfl, c1_no_ceiling okOracle "demo-uid" [("t", JVal.null)] 0 (by decide)
    (by simp [runToolCallSequence]) (JVal.s "remote-ok") rfl⟩

/-- C2: the gateway always hands the remote service exactly
`identityMetadata uid` — the session's caller identity — whatever the
tool name and arguments are; with an oracle that echoes the metadata it
received, any two invocations in the same session (different names,
different argument payloads, including identity-like fields inside the
arguments) observe the same attached identity. -/
theorem c2_identity_injection (call_tool : CallTool) (uid n1 n2 : String)
    (a1 a2 : JVal) :
    process_tool_call call_tool uid n1 a1
      = (match call_tool n1 a1 (identityMetadata uid) with
         | Except.ok r => r
         | Except.error e =>
             JVal.obj [("error", JVal.s e), ("tool", JVal.s n1)]) ∧
    process_tool_call echoMeta uid n1 a1 = identityMetadata uid ∧
    process_tool_call echoMeta uid n1 a1 = process_tool_call echoMeta uid n2 a2 :=
  ⟨rfl, rfl, rfl⟩

/-- C3: `process_tool_call` is total and never raises: for every oracle
behaviour it either returns the remote result, or — when the remote call
raises with message `e` — returns the structured payload
`{error: e, tool: name}`. -/
theorem c3_never_raises (call_tool : CallTool) (uid name : String) (args : JVal) :
    (∃ r, call_tool name args (identityMetadata uid) = Except.ok r ∧
          process_tool_call call_tool uid name args = r) ∨
    (∃ e, call_tool name args (identityMetadata uid) = Except.error e ∧
          process_tool_call call_tool uid name args
            = JVal.obj [("error", JVal.s e), ("tool", JVal.s name)]) := by
  cases h : call_tool name args (identityMetadata uid) with
  | ok r => exact Or.inl ⟨r, rfl, by simp [process_tool_call, h]⟩
  | error e => exact Or.inr ⟨e, rfl, by simp [process_tool_call, h]⟩

/-- Characters taken by `pyTake` count out to `min`. -/
theorem pyTake_length (s : String) (n : Nat) :
    (pyTake s n).length = min n s.length := by
  cases s with
  | mk data => simp [pyTake, String.length]

/-- A `json.dumps` oracle that always raises `TypeError`. -/
def failDumps : Dumps := fun _ => Except.error ()

/-- C5 counterexample: when serialization raises `TypeError`, the stored
snapshot becomes `None` — it does not remain at the previous value. -/
theorem c5_counterexample :
    handle_state_update failDumps (some "previous-snapshot") (JVal.obj []) = none ∧
    (none : Option String) ≠ some "previous-snapshot" :=
  ⟨rfl, by simp⟩

/-- C5 (amended): a serializable document-state update is stored as the
serialization truncated to its first 4000 characters (exactly 4000 when
the serialization is longer than 4000), and an update whose serialization
raises is caught — no exception escapes — but resets the snapshot to
`None` instead of keeping the previous value. -/
theorem c5_amended (dumps : Dumps) (prev : Option String) (content : JVal) :
    (∀ t, dumps content = Except.ok t →
      handle_state_update dumps prev content = some (pyTake t 4000) ∧
      (4000 < t.length → (pyTake t 4000).length = 4000)) ∧
    (∀ u, dumps content = Except.error u →
      handle_state_update dumps prev content = none) := by
  constructor
  · intro t ht
    constructor
    · simp [handle_state_update, ht]
    · intro hlen
      rw [pyTake_length]
      omega
  · intro u hu
    simp [handle_state_update, hu]

/-- A `json.dumps` oracle producing a 4001-character serialization. -/
def longDumps : Dumps := fun _ => Except.ok (String.mk (List.replicate 4001 'x'))

/-- Length of the concrete 4001-character serialization. -/
theorem longStr_length : (String.mk (List.replicate 4001 'x')).length = 4001 := by
  show (List.replicate 4001 'x').length = 4001
  rw [List.length_replicate]

/-- C5 witness: `c5_amended` at a 4001-character serialization (stored
truncated to exactly 4000 characters) and at a failing serialization
(snapshot reset to `None`). -/
theorem c5_amended_witness :
    handle_state_update longDumps (some "old") JVal.null
      = some (pyTake (String.mk (List.replicate 4001 'x')) 4000) ∧
    (pyTake (String.mk (List.replicate 4001 'x')) 4000).length = 4000 ∧
    handle_state_update failDumps (some "old") JVal.null = none := by
  have h := (c5_amended longDumps (some "old") JVal.null).1
    (String.mk (List.replicate 4001 'x')) rfl
  have h2 := (c5_amended failDumps (some "old") JVal.null).2 () rfl
  refine ⟨h.1, h.2 ?_, h2⟩
  rw [longStr_length]
  omega

/-- C8: `build_agent` fails fast at construction with a descriptive
configuration error: a falsy credential for the selected provider yields
the error naming the missing environment variable (GEMINI_API_KEY or
OPENAI_API_KEY), an unrecognized provider tag yields the provider error,
and construction succeeds only when a recognized provider's credential is
present — so these conditions can never reach a turn. -/
theorem c8_config_fail_fast (s : Settings)
    (hp : ¬(s.ai_provider = "" ∨ pyStrip s.ai_provider = ""))
    (hm : ¬(s.llm_model = "" ∨ pyStrip s.llm_model = "")) :
    (pyLower (pyStrip s.ai_provider) = "gemini" →
      optionFalsy s.gemini_api_key = true →
      build_agent s
        = Except.error "GEMINI_API_KEY is required when AI_PROVIDER=gemini") ∧
    (pyLower (pyStrip s.ai_provider) = "openai" →
      optionFalsy s.openai_api_key = true →
      build_agent s
        = Except.error "OPENAI_API_KEY is required when AI_PROVIDER=openai") ∧
    (pyLower (pyStrip s.ai_provider) ≠ "gemini" →
      pyLower (pyStrip s.ai_provider) ≠ "openai" →
      build_agent s
        = Except.error "AI_PROVIDER must be \x27gemini\x27 or \x27openai\x27") ∧
    (∀ m, build_agent s = Except.ok m →
      (pyLower (pyStrip s.ai_provider) = "gemini" ∧
        optionFalsy s.gemini_api_key = false) ∨
      (pyLower (pyStrip s.ai_provider) = "openai" ∧
        optionFalsy s.openai_api_key = false)) := by
  refine ⟨?_, ?_, ?_, ?_⟩
  · intro hg hk
    simp [build_agent, hp, hm, hg, hk]
  · intro ho hk
    by_cases hg : pyLower (pyStrip s.ai_provider) = "gemini"
    · rw [hg] at ho; exact absurd ho (by decide)
    · simp [build_agent, hp, hm, hg, ho, hk]
  · intro hg ho
    simp [build_agent, hp, hm, hg, ho]
  · intro m hok
    by_cases hg : pyLower (pyStrip s.ai_provider) = "gemini"
    · left
      refine ⟨hg, ?_⟩
      by_cases hk : optionFalsy s.gemini_api_key
      · simp [build_agent, hp, hm, hg, hk] at hok
      · simpa using hk
    · by_cases ho : pyLower (pyStrip s.ai_provider) = "openai"
      · right
        refine ⟨ho, ?_⟩
        by_cases hk : optionFalsy s.openai_api_key
        · simp [build_agent, hp, hm, hg, ho, hk] at hok
        · simpa using hk
      · simp [build_agent, hp, hm, hg, ho] at hok

/-- A settings value selecting the gemini provider with no credential. -/
def settingsNoGeminiKey : Settings :=
  ⟨"cid", "csec", "user_abc", "mcpkey", "gemini", "gemini-flash", none, none⟩

/-- C8 witness: `c8_config_fail_fast` at concrete settings missing the
gemini credential. -/
theorem c8_config_fail_fast_witness :
    build_agent settingsNoGeminiKey
      = Except.error "GEMINI_API_KEY is required when AI_PROVIDER=gemini" :=
  (c8_config_fail_fast settingsNoGeminiKey (by decide) (by decide)).1
    (by decide) rfl

/-- C10: the caller identity is a single process-wide value fixed in the
settings: the uid placed in a turn's deps is `settings.beefree_uid`
whatever the connection and turn, the gateway attaches exactly that
identity, and the same value is the uid in the payload posted to the
external auth-token endpoint. -/
theorem c10_single_process_identity (s : Settings)
    (conn1 turn1 conn2 turn2 : Nat) (name : String) (args : JVal) :
    mkTurnDepsUid s conn1 turn1 = s.beefree_uid ∧
    mkTurnDepsUid s conn1 turn1 = mkTurnDepsUid s conn2 turn2 ∧
    process_tool_call echoMeta (mkTurnDepsUid s conn1 turn1) name args
      = identityMetadata s.beefree_uid ∧
    jIndex (get_beefree_token_payload s) "uid" = Except.ok (JVal.s s.beefree_uid) :=
  ⟨rfl, rfl, rfl, rfl⟩

/-- On a healthy channel every progress message is sent. -/
theorem sendProgressAll_none (ms : List String) :
    sendProgressAll none ms = (none, ms.map Event.progress, ms.map Event.progress) := by
  induction ms with
  | nil => rfl
  | cons m rest ih => simp [sendProgressAll, sendEv, ih]

/-- A channel with exactly as many successful sends left as there are
progress messages delivers all of them and then dies. -/
theorem sendProgressAll_dies (ms : List String) :
    sendProgressAll (some ms.length) ms
      = (some 0, ms.map Event.progress, ms.map Event.progress) := by
  induction ms with
  | nil => rfl
  | cons m rest ih => simp [sendProgressAll, sendEv, List.length_cons, ih]

/-- C4: on a healthy channel, a chat turn whose agent run raises leaves
the session history exactly as it was and emits the error event (after
`start` and the progress events); a turn whose agent run succeeds with
an extended message log commits that log, strictly extending the
pre-turn history. -/
theorem c4_turn_history (run : AgentRun) (history : List Msg)
    (snapshot : Option String) (userMsg : JVal) :
    (∀ ps e, run history userMsg (instructionsOf snapshot) = ⟨ps, Except.error e⟩ →
      (handleChat run none history snapshot userMsg).history = history ∧
      (handleChat run none history snapshot userMsg).sent
        = Event.start :: ps.map Event.progress ++ [Event.error ("Error: " ++ e)]) ∧
    (∀ ps out ext, ext ≠ [] →
      run history userMsg (instructionsOf snapshot)
          = ⟨ps, Except.ok (out, history ++ ext)⟩ →
      (handleChat run none history snapshot userMsg).history = history ++ ext ∧
      (handleChat run none history snapshot userMsg).history ≠ history) := by
  constructor
  · intro ps e hr
    constructor
    · simp [handleChat, sendEv, hr, sendProgressAll_none]
    · simp [handleChat, sendEv, hr, sendProgressAll_none]
  · intro ps out ext hne hr
    have hh : (handleChat run none history snapshot userMsg).history
        = history ++ ext := by
      simp [handleChat, sendEv, hr, sendProgressAll_none]
    refine ⟨hh, ?_⟩
    rw [hh]
    intro habs
    have hlen := congrArg List.length habs
    rw [List.length_append] at hlen
    have hz : ext.length = 0 := by omega
    exact hne (List.eq_nil_of_length_eq_zero hz)

/-- An agent run that raises after one progress message. -/
def runErrC4 : AgentRun := fun _ _ _ => ⟨["step one"], Except.error "boom"⟩

/-- An agent run that succeeds and appends two messages to the log. -/
def runOkC4 : AgentRun :=
  fun h _ _ => ⟨[], Except.ok (some "done", h ++ ["user: hi", "assistant: done"])⟩

/-- C4 witness: `c4_turn_history` at a failing and at a succeeding
concrete agent run. -/
theorem c4_turn_history_witness :
    (handleChat runErrC4 none ["m0"] none (JVal.s "hi")).history = ["m0"] ∧
    (handleChat runOkC4 none ["m0"] none (JVal.s "hi")).history
      = ["m0"] ++ ["user: hi", "assistant: done"] ∧
    (handleChat runOkC4 none ["m0"] none (JVal.s "hi")).history ≠ ["m0"] := by
  refine ⟨((c4_turn_history runErrC4 ["m0"] none (JVal.s "hi")).1
      ["step one"] "boom" rfl).1, ?_, ?_⟩
  · exact ((c4_turn_history runOkC4 ["m0"] none (JVal.s "hi")).2
      [] (some "done") ["user: hi", "assistant: done"] (by simp) rfl).1
  · exact ((c4_turn_history runOkC4 ["m0"] none (JVal.s "hi")).2
      [] (some "done") ["user: hi", "assistant: done"] (by simp) rfl).2

/-- C6: on a healthy channel, a successful chat turn emits exactly
`start` first, then the agent's progress events in issue order, then one
`stream` event carrying the final answer text (the canned notice when
the output is falsy), and `complete` last; `complete` occurs nowhere
earlier, so no progress or stream event follows it. -/
theorem c6_event_order (run : AgentRun) (history : List Msg)
    (snapshot : Option String) (userMsg : JVal) (ps : List String)
    (out : Option String) (allMsgs : List Msg)
    (hr : run history userMsg (instructionsOf snapshot)
            = ⟨ps, Except.ok (out, allMsgs)⟩) :
    (handleChat run none history snapshot userMsg).sent
      = Event.start :: ps.map Event.progress
          ++ [Event.stream (outputTextOf out), Event.complete] ∧
    (handleChat run none history snapshot userMsg).sent.getLast?
      = some Event.complete ∧
    Event.complete ∉
      Event.start :: ps.map Event.progress
        ++ [Event.stream (outputTextOf out)] := by
  have hsent : (handleChat run none history snapshot userMsg).sent
      = Event.start :: ps.map Event.progress
          ++ [Event.stream (outputTextOf out), Event.complete] := by
    simp [handleChat, sendEv, hr, sendProgressAll_none]
  refine ⟨hsent, ?_, ?_⟩
  · rw [hsent]
    have hform : Event.start :: ps.map Event.progress
          ++ [Event.stream (outputTextOf out), Event.complete]
        = (Event.start :: ps.map Event.progress
            ++ [Event.stream (outputTextOf out)]) ++ [Event.complete] := by
      simp
    rw [hform, List.getLast?_concat]
  · intro hmem
    rcases List.mem_cons.mp hmem with h1 | h2
    · exact Event.noConfusion h1
    · rcases List.mem_append.mp h2 with h3 | h4
      · rcases List.mem_map.mp h3 with ⟨a, _, ha⟩
        exact Event.noConfusion ha
      · exact Event.noConfusion (List.mem_singleton.mp h4)

/-- An agent run issuing two progress updates before finishing. -/
def runOkC6 : AgentRun :=
  fun _ _ _ => ⟨["adding hero", "validating"],
    Except.ok (some "All done", ["u", "a"])⟩

/-- C6 witness: `c6_event_order` at a concrete two-progress turn. -/
theorem c6_event_order_witness :
    (handleChat runOkC6 none [] none (JVal.s "make an email")).sent
      = [Event.start, Event.progress "adding hero", Event.progress "validating",
         Event.stream "All done", Event.complete] ∧
    (handleChat runOkC6 none [] none (JVal.s "make an email")).sent.getLast?
      = some Event.complete := by
  have h := c6_event_order runOkC6 [] none (JVal.s "make an email")
    ["adding hero", "validating"] (some "All done") ["u", "a"] rfl
  refine ⟨?_, h.2.1⟩
  rw [h.1]
  rfl

/-- The agent run used in the C7 scenarios. -/
def runC7 : AgentRun := fun _ _ _ => ⟨[], Except.ok (some "hi", ["u", "a"])⟩

/-- Collaborators for the C7 scenarios: one decodable chat frame. -/
def envC7 : LoopEnv :=
  ⟨fun f => if f = "chat-frame"
      then Except.ok (JVal.obj [("type", JVal.s "chat"), ("message", JVal.s "go")])
      else Except.error "Expecting value",
   fun _ => Except.error (),
   runC7⟩

/-- C7 counterexample: when the client disconnect is detected mid-turn —
the `stream` send fails — the inner `except Exception` still attempts an
`error` event on the dead channel (the write after the disconnect was
detected), before the loop exits. -/
theorem c7_counterexample :
    (wsLoop envC7 (some 1) [] none [RecvEv.msg "chat-frame"]).attempted
      = [Event.start, Event.stream "hi", Event.error "Error: WebSocketDisconnect"] ∧
    (wsLoop envC7 (some 1) [] none [RecvEv.msg "chat-frame"]).sent
      = [Event.start] ∧
    (wsLoop envC7 (some 1) [] none [RecvEv.msg "chat-frame"]).exitKind
      = ExitKind.cleanDisconnect :=
  ⟨rfl, rfl, rfl⟩

/-- C7 (amended): a disconnect detected while awaiting an inbound frame
exits the loop cleanly with no event attempted at all; a disconnect
detected mid-turn (a failing send) also ends in a clean exit, with
nothing more delivered, but the inner handler first attempts exactly one
`error` event after the disconnect is detected. -/
theorem c7_amended (env : LoopEnv) (history : List Msg)
    (snapshot : Option String) (rest : List RecvEv) (frame : String)
    (v um : JVal) (ps : List String) (out : Option String) (allMsgs : List Msg)
    (hl : env.loads frame = Except.ok v)
    (ht : jIndex v "type" = Except.ok (JVal.s "chat"))
    (hm : jIndex v "message" = Except.ok um)
    (hr : env.run history um (instructionsOf snapshot)
            = ⟨ps, Except.ok (out, allMsgs)⟩) :
    wsLoop env (some (ps.length + 1)) history snapshot (RecvEv.disconnect :: rest)
      = ⟨[], [], history, snapshot, ExitKind.cleanDisconnect⟩ ∧
    wsLoop env (some (ps.length + 1)) history snapshot (RecvEv.msg frame :: rest)
      = ⟨Event.start :: ps.map Event.progress,
         Event.start :: ps.map Event.progress
           ++ [Event.stream (outputTextOf out),
               Event.error "Error: WebSocketDisconnect"],
         history, snapshot, ExitKind.cleanDisconnect⟩ := by
  constructor
  · rfl
  · simp [wsLoop, hl, ht, hm, JVal.isStr, handleChat, sendEv, hr,
      sendProgressAll_dies, PyExc.msgOf]

/-- C7 witness: `c7_amended` at the concrete mid-turn-disconnect
scenario. -/
theorem c7_amended_witness :
    wsLoop envC7 (some 1) [] none [RecvEv.disconnect]
      = ⟨[], [], [], none, ExitKind.cleanDisconnect⟩ ∧
    wsLoop envC7 (some 1) [] none [RecvEv.msg "chat-frame"]
      = ⟨[Event.start],
         [Event.start, Event.stream "hi", Event.error "Error: WebSocketDisconnect"],
         [], none, ExitKind.cleanDisconnect⟩ := by
  have h := c7_amended envC7 [] none [] "chat-frame"
    (JVal.obj [("type", JVal.s "chat"), ("message", JVal.s "go")])
    (JVal.s "go") [] (some "hi") ["u", "a"] rfl rfl rfl rfl
  exact ⟨h.1, h.2⟩

/-- The agent run used in the C9 scenarios. -/
def runC9 : AgentRun := fun _ _ _ => ⟨[], Except.ok (some "ok", ["u", "a"])⟩

/-- Collaborators for the C9 scenarios: one decodable chat frame, one
frame of unknown type, all other frames fail JSON decoding. -/
def envC9 : LoopEnv :=
  ⟨fun f => if f = "chat-frame"
      then Except.ok (JVal.obj [("type", JVal.s "chat"), ("message", JVal.s "hi")])
      else if f = "unknown-frame"
      then Except.ok (JVal.obj [("type", JVal.s "mystery")])
      else Except.error "Expecting value: line 1 column 1 (char 0)",
   fun _ => Except.error (),
   runC9⟩

/-- C9 counterexample: a frame that cannot be decoded as JSON is not
ignored — it terminates the processing loop (outer handler, connection
closed), so a valid chat frame queued behind it is never processed,
whereas the same chat frame alone produces a full turn. -/
theorem c9_counterexample :
    wsLoop envC9 none [] none [RecvEv.msg "garbage", RecvEv.msg "chat-frame"]
      = ⟨[], [], [], none, ExitKind.errorClose⟩ ∧
    (wsLoop envC9 none [] none [RecvEv.msg "chat-frame"]).sent
      = [Event.start, Event.stream "ok", Event.complete] :=
  ⟨rfl, rfl⟩

/-- C9 (amended): a frame whose `type` is neither `chat` nor
`editor_state` is ignored and the loop continues with the next frame
unchanged; but a frame that fails JSON decoding raises out of the loop:
the connection is closed and no subsequent frame is processed. -/
theorem c9_amended (env : LoopEnv) (chan : Chan) (history : List Msg)
    (snapshot : Option String) (rest : List RecvEv) (frame : String) :
    (∀ e, env.loads frame = Except.error e →
      wsLoop env chan history snapshot (RecvEv.msg frame :: rest)
        = ⟨[], [], history, snapshot, ExitKind.errorClose⟩) ∧
    (∀ v t, env.loads frame = Except.ok v → jIndex v "type" = Except.ok t →
      JVal.isStr t "chat" = false → JVal.isStr t "editor_state" = false →
      wsLoop env chan history snapshot (RecvEv.msg frame :: rest)
        = wsLoop env chan history snapshot rest) := by
  constructor
  · intro e he
    simp [wsLoop, he]
  · intro v t hv ht h1 h2
    simp [wsLoop, hv, ht, h1, h2]

/-- C9 witness: `c9_amended` at a malformed frame and at an
unknown-type frame. -/
theorem c9_amended_witness :
    wsLoop envC9 none [] none [RecvEv.msg "garbage"]
      = ⟨[], [], [], none, ExitKind.errorClose⟩ ∧
    wsLoop envC9 none [] none [RecvEv.msg "unknown-frame", RecvEv.msg "chat-frame"]
      = wsLoop envC9 none [] none [RecvEv.msg "chat-frame"] := by
  constructor
  · exact (c9_amended envC9 none [] none [] "garbage").1
      "Expecting value: line 1 column 1 (char 0)" rfl
  · exact (c9_amended envC9 none [] none [RecvEv.msg "chat-frame"]
      "unknown-frame").2 (JVal.obj [("type", JVal.s "mystery")])
      (JVal.s "mystery") rfl rfl rfl rfl

end BeefreeMcp
